import Mathlib

/-!
Verification of the AI-Powered-Website-Analyzer orchestration core.

This file gives a shallow embedding, in Lean 4, of the scoring, fallback,
caching and pipeline logic of the repository, and proves (or refutes) the
stated properties of that logic.  JavaScript numbers are modelled as exact
rationals, JavaScript class instances as structures, asynchronous network
calls as explicit outcome parameters of type `Except`, and fallible code as
total Lean functions returning the documented fallback values.
-/

namespace WebAnalyzer

/-! ## Threshold penalty model (ux module, helper `clamp` / `penaltyFromMetric`)

Source: the UX & Accessibility module.  `clamp(value, min = 0, max = 1)`
returns `Math.max(min, Math.min(max, value))`; the call sites below always
use the default bounds, written here explicitly as `clamp x 0 1`. -/

def clamp (value lo hi : ℚ) : ℚ := max lo (min hi value)

/-- `penaltyFromMetric(value, good, bad)` from the UX module:
`if (value <= good) return 0; if (value >= bad) return 1;
return clamp((value - good) / (bad - good));` -/
def penaltyFromMetric (value good bad : ℚ) : ℚ :=
  if value ≤ good then 0
  else if bad ≤ value then 1
  else clamp ((value - good) / (bad - good)) 0 1

/-- `Math.round` in JavaScript: round half toward positive infinity. -/
def jsRound (q : ℚ) : ℤ := ⌊q + 1 / 2⌋

lemma clamp01_nonneg (x : ℚ) : 0 ≤ clamp x 0 1 := le_max_left 0 _

lemma clamp01_le_one (x : ℚ) : clamp x 0 1 ≤ 1 :=
  max_le zero_le_one (min_le_left 1 x)

lemma penaltyFromMetric_nonneg (v g b : ℚ) : 0 ≤ penaltyFromMetric v g b := by
  unfold penaltyFromMetric
  split_ifs with h1 h2
  · exact le_refl 0
  · exact zero_le_one
  · exact clamp01_nonneg _

lemma penaltyFromMetric_le_one (v g b : ℚ) : penaltyFromMetric v g b ≤ 1 := by
  unfold penaltyFromMetric
  split_ifs with h1 h2
  · exact zero_le_one
  · exact le_refl 1
  · exact clamp01_le_one _

lemma clamp01_mono {x y : ℚ} (h : x ≤ y) : clamp x 0 1 ≤ clamp y 0 1 :=
  max_le_max le_rfl (min_le_min le_rfl h)

lemma penaltyFromMetric_mono (g b : ℚ) {v w : ℚ} (hvw : v ≤ w) :
    penaltyFromMetric v g b ≤ penaltyFromMetric w g b := by
  by_cases hv : v ≤ g
  · have : penaltyFromMetric v g b = 0 := by
      unfold penaltyFromMetric; rw [if_pos hv]
    rw [this]; exact penaltyFromMetric_nonneg w g b
  · by_cases hw : b ≤ w
    · have : penaltyFromMetric w g b = 1 := by
        unfold penaltyFromMetric
        rcases le_or_lt w g with hwg | hwg
        · exact absurd (hvw.trans hwg) hv
        · rw [if_neg (not_le.mpr hwg), if_pos hw]
      rw [this]; exact penaltyFromMetric_le_one v g b
    · have hvb : ¬ b ≤ v := fun hb => hw (hb.trans hvw)
      have hwg : ¬ w ≤ g := fun hg => hv (hvw.trans hg)
      unfold penaltyFromMetric
      rw [if_neg hv, if_neg hvb, if_neg hwg, if_neg hw]
      apply clamp01_mono
      have hgv : g < v := lt_of_not_le hv
      have hbv : v < b := lt_of_not_le hvb
      have hgb : (0 : ℚ) < b - g := by linarith
      exact div_le_div_of_nonneg_right (by linarith) hgb.le

/-- C1 (amended): for `g < b`, `penaltyFromMetric` returns 0 for `v ≤ g`, 1 for
`v ≥ b`, the clamped linear interpolation strictly between, is monotone
non-decreasing in `v`, satisfies `penalty(g,g,b) = 0` and `penalty(b,g,b) = 1`,
and `penalty(1.5, 0, 3) = 0.5`.  (The original claim allowed `g = b`, where the
`v ≤ good` branch wins and `penalty(b,g,b) = 0`, refuted below.) -/
theorem C1_threshold_penalty (v g b : ℚ) (hgb : g < b) :
    (v ≤ g → penaltyFromMetric v g b = 0) ∧
    (b ≤ v → penaltyFromMetric v g b = 1) ∧
    (g < v → v < b → penaltyFromMetric v g b = clamp ((v - g) / (b - g)) 0 1) ∧
    (∀ w, v ≤ w → penaltyFromMetric v g b ≤ penaltyFromMetric w g b) ∧
    penaltyFromMetric g g b = 0 ∧
    penaltyFromMetric b g b = 1 ∧
    penaltyFromMetric (3 / 2) 0 3 = 1 / 2 := by
  refine ⟨?_, ?_, ?_, ?_, ?_, ?_, ?_⟩
  · intro h; unfold penaltyFromMetric; rw [if_pos h]
  · intro h
    unfold penaltyFromMetric
    rw [if_neg (by intro hvg; exact absurd (h.trans hvg) (not_le.mpr hgb)), if_pos h]
  · intro h1 h2
    unfold penaltyFromMetric
    rw [if_neg (not_le.mpr h1), if_neg (not_le.mpr h2)]
  · intro w hw; exact penaltyFromMetric_mono g b hw
  · unfold penaltyFromMetric; rw [if_pos le_rfl]
  · unfold penaltyFromMetric
    rw [if_neg (not_le.mpr hgb), if_pos le_rfl]
  · norm_num [penaltyFromMetric, clamp]

/-- Witness for C1: the amended theorem applied at the spec's own example
band `(good, bad) = (0, 3)`. -/
theorem C1_threshold_penalty_witness :
    penaltyFromMetric 0 0 3 = 0 ∧ penaltyFromMetric 3 0 3 = 1 ∧
    penaltyFromMetric (3 / 2) 0 3 = 1 / 2 := by
  have h := C1_threshold_penalty (3 / 2) 0 3 (by norm_num)
  exact ⟨h.2.2.2.2.1, h.2.2.2.2.2.1, h.2.2.2.2.2.2⟩

/-- C1 counterexample: the claim as stated quantifies over all `g ≤ b`.  At the
degenerate band `g = b = 0` with `v = 0`, the code's first branch (`value <=
good`) wins and returns 0, so the claimed "returns 1 when v >= b" (and with it
`penalty(b,g,b) = 1`) is false. -/
theorem C1_claim_counterexample :
    ¬ (∀ v g b : ℚ, g ≤ b →
        (v ≤ g → penaltyFromMetric v g b = 0) ∧
        (b ≤ v → penaltyFromMetric v g b = 1)) := by
  intro h
  have h2 := (h 0 0 0 le_rfl).2 le_rfl
  norm_num [penaltyFromMetric] at h2

/-! ## UX / Accessibility module scorer

Source: the UX module's `THRESHOLDS`, `MOBILE_THRESHOLDS` and
`calculateUXScore(data, isMobile)`.  Axe violations are modelled by their
`impact` and `id` strings (the only fields the scorer reads); every JS
number is an exact rational.  The JS stable `Array.sort` with comparator
`(a, b) => b.penalty - a.penalty` is modelled by Mathlib's stable
`List.insertionSort` with the matching total preorder. -/

structure UXViolation where
  impact : String
  id : String

structure TouchTargets where
  too_small_count : ℚ

structure TextSizeIssues where
  too_small_text_count : ℚ

structure UXData where
  violations : List UXViolation
  violations_count : ℚ
  ctas_above_fold : ℚ
  dom_node_count : ℚ
  viewport_meta_present : Bool
  touch_targets : Option TouchTargets
  text_size_issues : Option TextSizeIssues

structure UXThresholds where
  VIOLATIONS_CRITICAL_GOOD : ℚ
  VIOLATIONS_CRITICAL_BAD : ℚ
  VIOLATIONS_SERIOUS_GOOD : ℚ
  VIOLATIONS_SERIOUS_BAD : ℚ
  VIOLATIONS_MODERATE_GOOD : ℚ
  VIOLATIONS_MODERATE_BAD : ℚ
  CTA_ABOVE_FOLD_MIN : ℚ
  DOM_NODES_GOOD : ℚ
  DOM_NODES_BAD : ℚ
  TOUCH_TARGETS_TOO_SMALL_GOOD : ℚ
  TOUCH_TARGETS_TOO_SMALL_BAD : ℚ
  TEXT_TOO_SMALL_GOOD : ℚ
  TEXT_TOO_SMALL_BAD : ℚ

/-- Desktop `THRESHOLDS` object.  The touch/text fields do not exist on the
desktop object in the source; they are only ever read from
`MOBILE_THRESHOLDS`, so the desktop values here are never consulted. -/
def THRESHOLDS : UXThresholds :=
  { VIOLATIONS_CRITICAL_GOOD := 0, VIOLATIONS_CRITICAL_BAD := 3
    VIOLATIONS_SERIOUS_GOOD := 0, VIOLATIONS_SERIOUS_BAD := 5
    VIOLATIONS_MODERATE_GOOD := 0, VIOLATIONS_MODERATE_BAD := 10
    CTA_ABOVE_FOLD_MIN := 1, DOM_NODES_GOOD := 800, DOM_NODES_BAD := 1500
    TOUCH_TARGETS_TOO_SMALL_GOOD := 0, TOUCH_TARGETS_TOO_SMALL_BAD := 10
    TEXT_TOO_SMALL_GOOD := 0, TEXT_TOO_SMALL_BAD := 8 }

/-- `MOBILE_THRESHOLDS = { ...THRESHOLDS, DOM_NODES_GOOD: 1200, ... }`. -/
def MOBILE_THRESHOLDS : UXThresholds :=
  { THRESHOLDS with
    DOM_NODES_GOOD := 1200, DOM_NODES_BAD := 2500
    TOUCH_TARGETS_TOO_SMALL_GOOD := 0, TOUCH_TARGETS_TOO_SMALL_BAD := 10
    TEXT_TOO_SMALL_GOOD := 0, TEXT_TOO_SMALL_BAD := 8 }

def uxThresholdsFor (isMobile : Bool) : UXThresholds :=
  if isMobile then MOBILE_THRESHOLDS else THRESHOLDS

/-- `violations.filter(v => v.impact === s).length`. -/
def countImpact (vs : List UXViolation) (s : String) : ℕ :=
  (vs.filter (fun v => v.impact = s)).length

def uxCriticalPenalty (d : UXData) (isMobile : Bool) : ℚ :=
  let T := uxThresholdsFor isMobile
  penaltyFromMetric (countImpact d.violations "critical")
    T.VIOLATIONS_CRITICAL_GOOD T.VIOLATIONS_CRITICAL_BAD

def uxSeriousPenalty (d : UXData) (isMobile : Bool) : ℚ :=
  let T := uxThresholdsFor isMobile
  penaltyFromMetric (countImpact d.violations "serious")
    T.VIOLATIONS_SERIOUS_GOOD T.VIOLATIONS_SERIOUS_BAD

def uxModeratePenalty (d : UXData) (isMobile : Bool) : ℚ :=
  let T := uxThresholdsFor isMobile
  penaltyFromMetric (countImpact d.violations "moderate")
    T.VIOLATIONS_MODERATE_GOOD T.VIOLATIONS_MODERATE_BAD

/-- `ACCESSIBILITY_penalty = 0.5*critical + 0.3*serious + 0.2*moderate`. -/
def uxAccessibilityPenalty (d : UXData) (isMobile : Bool) : ℚ :=
  1 / 2 * uxCriticalPenalty d isMobile + 3 / 10 * uxSeriousPenalty d isMobile +
    1 / 5 * uxModeratePenalty d isMobile

def uxDomPenalty (d : UXData) (isMobile : Bool) : ℚ :=
  let T := uxThresholdsFor isMobile
  penaltyFromMetric d.dom_node_count T.DOM_NODES_GOOD T.DOM_NODES_BAD

/-- `USABILITY_penalty`: flat 0.4 when no CTA above the fold, flat 0.3
(desktop) / 0.5 (mobile) when the viewport meta is missing, plus
`0.3 * dom_penalty`. -/
def uxUsabilityPenalty (d : UXData) (isMobile : Bool) : ℚ :=
  (if d.ctas_above_fold < (uxThresholdsFor isMobile).CTA_ABOVE_FOLD_MIN then 2 / 5 else 0) +
    (if d.viewport_meta_present then 0 else if isMobile then 1 / 2 else 3 / 10) +
    3 / 10 * uxDomPenalty d isMobile

/-- `violations.filter(v => v.id === 'image-alt' || v.id === 'image-redundant-alt')`. -/
def uxAltViolationCount (d : UXData) : ℕ :=
  (d.violations.filter (fun v => v.id = "image-alt" ∨ v.id = "image-redundant-alt")).length

/-- `TRUST_penalty`: `Math.min(1, altViolations.length / 10)` when any alt-text
violation exists. -/
def uxTrustPenalty (d : UXData) : ℚ :=
  if 0 < uxAltViolationCount d then min 1 ((uxAltViolationCount d : ℚ) / 10) else 0

/-- Mobile-only sub-penalty: `0.5 * touch_penalty + 0.5 * text_penalty`, each
contribution gated on the data object being present with a positive count. -/
def uxMobilePenalty (d : UXData) (isMobile : Bool) : ℚ :=
  if isMobile then
    (match d.touch_targets with
      | some t =>
          if 0 < t.too_small_count then
            1 / 2 * penaltyFromMetric t.too_small_count
              MOBILE_THRESHOLDS.TOUCH_TARGETS_TOO_SMALL_GOOD
              MOBILE_THRESHOLDS.TOUCH_TARGETS_TOO_SMALL_BAD
          else 0
      | none => 0) +
    (match d.text_size_issues with
      | some t =>
          if 0 < t.too_small_text_count then
            1 / 2 * penaltyFromMetric t.too_small_text_count
              MOBILE_THRESHOLDS.TEXT_TOO_SMALL_GOOD
              MOBILE_THRESHOLDS.TEXT_TOO_SMALL_BAD
          else 0
      | none => 0)
  else 0

/-- `RAW_PENALTY` before clamping: desktop weights 50/30/20, mobile weights
40/25/15/20. -/
def uxRawPenalty (d : UXData) (isMobile : Bool) : ℚ :=
  if isMobile then
    2 / 5 * uxAccessibilityPenalty d isMobile + 1 / 4 * uxUsabilityPenalty d isMobile +
      3 / 20 * uxTrustPenalty d + 1 / 5 * uxMobilePenalty d isMobile
  else
    1 / 2 * uxAccessibilityPenalty d isMobile + 3 / 10 * uxUsabilityPenalty d isMobile +
      1 / 5 * uxTrustPenalty d

/-- `RAW_PENALTY = clamp(RAW_PENALTY, 0, 1)`. -/
def uxClampedPenalty (d : UXData) (isMobile : Bool) : ℚ :=
  clamp (uxRawPenalty d isMobile) 0 1

/-- `score = Math.round(100 * (1 - RAW_PENALTY))`. -/
def uxScoreValue (d : UXData) (isMobile : Bool) : ℤ :=
  jsRound (100 * (1 - uxClampedPenalty d isMobile))

structure UXFactor where
  factor : String
  value : ℚ
  penalty : ℚ

structure ViolationsByImpact where
  critical : ℕ
  serious : ℕ
  moderate : ℕ
  minor : ℕ

def uxViolationsByImpact (d : UXData) : ViolationsByImpact :=
  { critical := countImpact d.violations "critical"
    serious := countImpact d.violations "serious"
    moderate := countImpact d.violations "moderate"
    minor := countImpact d.violations "minor" }

/-- The `factors` array in source push order (before sorting). -/
def uxFactorsUnsorted (d : UXData) (isMobile : Bool) : List UXFactor :=
  (if 0 < uxCriticalPenalty d isMobile then
    [⟨"Critical A11y Violations", (countImpact d.violations "critical" : ℚ),
      uxCriticalPenalty d isMobile⟩] else []) ++
  (if 0 < uxSeriousPenalty d isMobile then
    [⟨"Serious A11y Violations", (countImpact d.violations "serious" : ℚ),
      uxSeriousPenalty d isMobile⟩] else []) ++
  (if 0 < uxModeratePenalty d isMobile then
    [⟨"Moderate A11y Violations", (countImpact d.violations "moderate" : ℚ),
      uxModeratePenalty d isMobile⟩] else []) ++
  (if d.ctas_above_fold < (uxThresholdsFor isMobile).CTA_ABOVE_FOLD_MIN then
    [⟨"No CTA Above Fold", d.ctas_above_fold, 2 / 5⟩] else []) ++
  (if d.viewport_meta_present then [] else
    [⟨"Missing Viewport Meta", 0, if isMobile then 1 / 2 else 3 / 10⟩]) ++
  (if 3 / 10 < uxDomPenalty d isMobile then
    [⟨"DOM Complexity", d.dom_node_count, uxDomPenalty d isMobile⟩] else []) ++
  (if 0 < uxAltViolationCount d then
    [⟨"Missing Image Alt Text", (uxAltViolationCount d : ℚ),
      min 1 ((uxAltViolationCount d : ℚ) / 10)⟩] else []) ++
  (if isMobile then
    (match d.touch_targets with
      | some t =>
          if 0 < t.too_small_count then
            let p := penaltyFromMetric t.too_small_count
              MOBILE_THRESHOLDS.TOUCH_TARGETS_TOO_SMALL_GOOD
              MOBILE_THRESHOLDS.TOUCH_TARGETS_TOO_SMALL_BAD
            if 0 < p then [⟨"Touch Targets Too Small", t.too_small_count, p⟩] else []
          else []
      | none => []) ++
    (match d.text_size_issues with
      | some t =>
          if 0 < t.too_small_text_count then
            let p := penaltyFromMetric t.too_small_text_count
              MOBILE_THRESHOLDS.TEXT_TOO_SMALL_GOOD
              MOBILE_THRESHOLDS.TEXT_TOO_SMALL_BAD
            if 0 < p then [⟨"Text Too Small for Mobile", t.too_small_text_count, p⟩] else []
          else []
      | none => [])
  else [])

/-- `factors.sort((a, b) => b.penalty - a.penalty)`: stable descending sort. -/
def uxFactorsSorted (d : UXData) (isMobile : Bool) : List UXFactor :=
  List.insertionSort (fun a b => b.penalty ≤ a.penalty) (uxFactorsUnsorted d isMobile)

def uxRiskLevel (d : UXData) : String :=
  let v := uxViolationsByImpact d
  if 0 < v.critical ∨ 2 < v.serious then "high"
  else if 0 < v.serious ∨ 5 < v.moderate then "medium"
  else "low"

def uxTrustIndicator (d : UXData) : String :=
  if 1 / 2 < uxTrustPenalty d then "high"
  else if 1 / 5 < uxTrustPenalty d then "medium"
  else "low"

def uxRecommendationFlag (d : UXData) (isMobile : Bool) : String :=
  let v := uxViolationsByImpact d
  if uxScoreValue d isMobile < 50 ∨ 0 < v.critical then "critical_fixes"
  else if uxScoreValue d isMobile < 70 ∨ 2 < v.serious then "priority_fixes"
  else "minor_fixes"

structure UXAnalysis where
  score : ℤ
  accessibility_risk_level : String
  primary_friction_sources : List String
  trust_impact_indicator : String
  recommendation_flag : String
  violations_by_impact : ViolationsByImpact
  factors : List UXFactor

/-- `calculateUXScore(data, isMobile)`, assembled from the sub-definitions
above, which follow the source line for line. -/
def calculateUXScore (d : UXData) (isMobile : Bool) : UXAnalysis :=
  { score := uxScoreValue d isMobile
    accessibility_risk_level := uxRiskLevel d
    primary_friction_sources := ((uxFactorsSorted d isMobile).take 5).map (fun f => f.factor)
    trust_impact_indicator := uxTrustIndicator d
    recommendation_flag := uxRecommendationFlag d isMobile
    violations_by_impact := uxViolationsByImpact d
    factors := uxFactorsSorted d isMobile }

lemma jsRound_nonneg {q : ℚ} (h : 0 ≤ q) : 0 ≤ jsRound q := by
  unfold jsRound
  exact Int.le_floor.mpr (by push_cast; linarith)

lemma jsRound_le_100 {q : ℚ} (h : q ≤ 100) : jsRound q ≤ 100 := by
  unfold jsRound
  have : (⌊q + 1 / 2⌋ : ℤ) ≤ ⌊(100 : ℚ) + 1 / 2⌋ := Int.floor_le_floor (by linarith)
  have h100 : ⌊(100 : ℚ) + 1 / 2⌋ = 100 := by norm_num
  omega

lemma uxClampedPenalty_mem (d : UXData) (isMobile : Bool) :
    0 ≤ uxClampedPenalty d isMobile ∧ uxClampedPenalty d isMobile ≤ 1 :=
  ⟨clamp01_nonneg _, clamp01_le_one _⟩

/-- C2: for every UX scorer input (desktop or mobile), the total penalty is
clamped to `[0,1]`, the returned score is `Math.round(100 * (1 - P))` of that
clamped penalty, and the score is an integer in `[0, 100]`. -/
theorem C2_ux_score_bounds (d : UXData) (isMobile : Bool) :
    0 ≤ uxClampedPenalty d isMobile ∧ uxClampedPenalty d isMobile ≤ 1 ∧
    (calculateUXScore d isMobile).score =
      jsRound (100 * (1 - uxClampedPenalty d isMobile)) ∧
    0 ≤ (calculateUXScore d isMobile).score ∧
    (calculateUXScore d isMobile).score ≤ 100 := by
  obtain ⟨h0, h1⟩ := uxClampedPenalty_mem d isMobile
  refine ⟨h0, h1, rfl, ?_, ?_⟩
  · exact jsRound_nonneg (by nlinarith)
  · exact jsRound_le_100 (by nlinarith)

/-- C9: in desktop mode, zero violations, viewport meta present, at least one
CTA above the fold, and 500 DOM nodes (≤ the desktop good threshold 800) give
score 100 and accessibility risk level low. -/
theorem C9_ux_perfect_desktop (c : ℚ) (hc : 1 ≤ c) :
    (calculateUXScore
        { violations := [], violations_count := 0, ctas_above_fold := c
          dom_node_count := 500, viewport_meta_present := true
          touch_targets := none, text_size_issues := none } false).score = 100 ∧
    (calculateUXScore
        { violations := [], violations_count := 0, ctas_above_fold := c
          dom_node_count := 500, viewport_meta_present := true
          touch_targets := none, text_size_issues := none } false).accessibility_risk_level
      = "low" := by
  have hnc : ¬ c < 1 := not_lt.mpr hc
  constructor
  · show uxScoreValue _ false = 100
    unfold uxScoreValue uxClampedPenalty uxRawPenalty uxAccessibilityPenalty
      uxUsabilityPenalty uxTrustPenalty uxCriticalPenalty uxSeriousPenalty
      uxModeratePenalty uxDomPenalty uxAltViolationCount countImpact uxThresholdsFor
    simp only [THRESHOLDS, List.filter_nil, List.length_nil, if_false, Bool.false_eq_true,
      if_true, Nat.cast_zero, hnc]
    norm_num [penaltyFromMetric, clamp, jsRound]
  · simp only [calculateUXScore]
    unfold uxRiskLevel uxViolationsByImpact countImpact
    simp

/-- Witness for C9: the theorem instantiated with exactly one CTA above the
fold. -/
theorem C9_ux_perfect_desktop_witness :
    (calculateUXScore
        { violations := [], violations_count := 0, ctas_above_fold := 1
          dom_node_count := 500, viewport_meta_present := true
          touch_targets := none, text_size_issues := none } false).score = 100 ∧
    (calculateUXScore
        { violations := [], violations_count := 0, ctas_above_fold := 1
          dom_node_count := 500, viewport_meta_present := true
          touch_targets := none, text_size_issues := none } false).accessibility_risk_level
      = "low" :=
  C9_ux_perfect_desktop 1 (by norm_num)

/-! ## Competitor batch analyzer and background pipeline

Source: `batchAnalyzer.js` (`analyze3Competitors`) and the
`POST /api/competitor/analyze-3-1` route in `competitor.js`.  The
per-competitor `runAnalysisJob` promise is modelled as an oracle
`runJob : String → Except String α`: `Promise.allSettled` settles each
analysis independently, so the list of settled outcomes is the pointwise
image of the oracle over the normalized URLs. -/

/-- URL normalization in `analyze3Competitors`: prepend `https://` unless the
string already starts with `http` (`url.startsWith('http')`, modelled as a
character-list prefix test). -/
def normalizeUrl (url : String) : String :=
  if "http".toList.isPrefixOf url.toList then url else "https://" ++ url

def isSettledError {ε α : Type} : Except ε α → Bool
  | .error _ => true
  | .ok _ => false

/-- `analyze3Competitors(competitorUrls)`: take the first 3 URLs, normalize,
settle each analysis independently, keep the fulfilled ones, and throw
(`Except.error`) unless at least 2 succeeded. -/
def analyze3Competitors {α : Type} (runJob : String → Except String α)
    (competitorUrls : List String) : Except String (List α) :=
  let normalizedUrls := (competitorUrls.take 3).map normalizeUrl
  let analyses := normalizedUrls.map runJob
  let successfulAnalyses := analyses.filterMap Except.toOption
  if successfulAnalyses.length < 2 then
    .error ("Failed to analyze enough competitors (only " ++
      toString successfulAnalyses.length ++ " succeeded)")
  else
    .ok (successfulAnalyses.take 3)

inductive CompStatus where
  | pending
  | analyzing
  | completed
  | failed
deriving DecidableEq, Repr

/-- Forward order of the comparison state machine:
`{pending} -> {analyzing} -> {completed, failed}`. -/
def statusRank : CompStatus → ℕ
  | .pending => 0
  | .analyzing => 1
  | .completed => 2
  | .failed => 2

/-- The background continuation of `POST /api/competitor/analyze-3-1`: the
comparison record is saved with status `completed` when the pipeline body
runs to the end, and the surrounding `catch` saves it with status `failed`
on any thrown error.  Discovery (`discoverTop3Competitors`) and comparison
(`generateComparison`) catch their own failures internally and always
return a fallback value, so the only throwing step of the body is
`analyze3Competitors`; the pipeline outcome is its result. -/
def backgroundContinuationStatus {α : Type} (batchResult : Except String (List α)) :
    CompStatus :=
  match batchResult with
  | .ok _ => .completed
  | .error _ => .failed

/-- Statuses saved on the comparison record, in order: the route constructs
and saves the record with `status: 'analyzing'` before responding, and the
detached continuation then saves it exactly once more. -/
def analyze31StatusTrace {α : Type} (batchResult : Except String (List α)) :
    List CompStatus :=
  [.analyzing, backgroundContinuationStatus batchResult]

/-- C3: over 3 competitor URLs, each analysis settles independently; with
exactly 1 failure the batch returns precisely the 2 successful results, and
with 2 failures it throws an insufficient-data error which the background
continuation turns into status `failed`. -/
theorem C3_batch_partial_failure {α : Type} (runJob : String → Except String α)
    (u1 u2 u3 : String) :
    (analyze3Competitors runJob [u1, u2, u3]).isOk =
        !(([u1, u2, u3].map (fun u => runJob (normalizeUrl u))).countP isSettledError ≥ 2) ∧
    ((([u1, u2, u3].map (fun u => runJob (normalizeUrl u))).countP isSettledError = 1) →
      analyze3Competitors runJob [u1, u2, u3] =
        .ok (([u1, u2, u3].map (fun u => runJob (normalizeUrl u))).filterMap Except.toOption) ∧
      (([u1, u2, u3].map (fun u => runJob (normalizeUrl u))).filterMap Except.toOption).length
        = 2) ∧
    ((([u1, u2, u3].map (fun u => runJob (normalizeUrl u))).countP isSettledError = 2) →
      (∃ msg, analyze3Competitors runJob [u1, u2, u3] = .error msg) ∧
      backgroundContinuationStatus (analyze3Competitors runJob [u1, u2, u3]) = .failed) := by
  rcases h1 : runJob (normalizeUrl u1) with e1 | a1 <;>
    rcases h2 : runJob (normalizeUrl u2) with e2 | a2 <;>
    rcases h3 : runJob (normalizeUrl u3) with e3 | a3 <;>
    simp [analyze3Competitors, isSettledError, backgroundContinuationStatus,
      List.countP_cons, Except.isOk, Except.toBool, Except.toOption, h1, h2, h3]

/-- Witness for C3: a concrete batch where the second of three URLs fails. -/
theorem C3_batch_partial_failure_witness :
    analyze3Competitors
      (fun u => if u = "https://b.com" then .error "scrape failed" else .ok u)
      ["a.com", "b.com", "c.com"] = .ok ["https://a.com", "https://c.com"] := by
  have h := (C3_batch_partial_failure
    (fun u => if u = "https://b.com" then .error "scrape failed" else .ok u)
    "a.com" "b.com" "c.com").2.1 (by rfl)
  exact h.1

/-- C7: the comparison record's status only moves forward: it is created in
`analyzing` state by the initiating request, the background continuation sets
it exactly once to `completed` on success or `failed` on any error, and the
resulting save trace is strictly increasing in the state-machine order (so no
execution transitions a status back to an earlier state). -/
theorem C7_status_monotone {α : Type} (batchResult : Except String (List α)) :
    (analyze31StatusTrace batchResult).head? = some .analyzing ∧
    (∃ s, analyze31StatusTrace batchResult = [.analyzing, s] ∧
      (s = .completed ∨ s = .failed)) ∧
    (analyze31StatusTrace batchResult).Chain' (fun a b => statusRank a < statusRank b) := by
  rcases batchResult with e | v <;>
    simp [analyze31StatusTrace, backgroundContinuationStatus, statusRank]

/-! ## Completion provider chain

Source: `llmService.js` (`generateCompletion`).  Provider configuration
(which API keys are set) and the outcome of each provider's network
request — success with a text, or any failure (non-2xx response, thrown
exception, malformed response shape) — are explicit parameters.  The
source wraps each provider call in try/catch and falls through, so the
embedding is a total function returning plain `String`: no execution path
throws to the caller. -/

structure LLMEnv where
  groqKey : Option String
  hfKey : Option String
  groqOutcome : String → String → Except String String
  hfOutcome : String → String → Except String String

/-- `_getMockResponse(prompt)`: a constant string, independent of the prompt. -/
def getMockResponse : String :=
  "AI insights unavailable (Check GROQ_API_KEY). Here is a generic recommendation: Focus on improving Core Web Vitals and ensuring high-quality, unique content."

/-- Stage 2 and 3 of `generateCompletion`: try HuggingFace if `HF_API_KEY` is
configured, else (or on its failure) return the mock response. -/
def llmHFStage (env : LLMEnv) (prompt systemPrompt : String) : String :=
  match env.hfKey with
  | some _ =>
    match env.hfOutcome prompt systemPrompt with
    | .ok generatedText => generatedText
    | .error _ => getMockResponse
  | none => getMockResponse

/-- `generateCompletion(prompt, systemPrompt)`: try Groq if `GROQ_API_KEY` is
configured; on any failure fall through to the HuggingFace stage. -/
def generateCompletion (env : LLMEnv) (prompt systemPrompt : String) : String :=
  match env.groqKey with
  | some _ =>
    match env.groqOutcome prompt systemPrompt with
    | .ok text => text
    | .error _ => llmHFStage env prompt systemPrompt
  | none => llmHFStage env prompt systemPrompt

/-- C4: the chain tries Groq first, then HuggingFace, falling to the next
provider on any failure; when all configured providers fail, or none is
configured, the deterministic mock string is returned.  The function is total
with result type `String`, which is the never-throws guarantee. -/
theorem C4_completion_fallback_chain (env : LLMEnv) (prompt systemPrompt : String) :
    (∀ k t, env.groqKey = some k → env.groqOutcome prompt systemPrompt = .ok t →
      generateCompletion env prompt systemPrompt = t) ∧
    (∀ k t, (env.groqKey = none ∨ ∃ e, env.groqOutcome prompt systemPrompt = .error e) →
      env.hfKey = some k → env.hfOutcome prompt systemPrompt = .ok t →
      generateCompletion env prompt systemPrompt = t) ∧
    ((env.groqKey = none ∨ ∃ e, env.groqOutcome prompt systemPrompt = .error e) →
      (env.hfKey = none ∨ ∃ e, env.hfOutcome prompt systemPrompt = .error e) →
      generateCompletion env prompt systemPrompt = getMockResponse) := by
  refine ⟨?_, ?_, ?_⟩
  · intro k t hk hok
    unfold generateCompletion
    rw [hk, hok]
  · intro k t hgroq hk hok
    have hhf : llmHFStage env prompt systemPrompt = t := by
      unfold llmHFStage; rw [hk, hok]
    unfold generateCompletion
    rcases hgroq with hnone | ⟨e, herr⟩
    · rw [hnone]; exact hhf
    · rcases hgk : env.groqKey with _ | k2
      · exact hhf
      · rw [herr]; exact hhf
  · intro hgroq hhf
    have hstage : llmHFStage env prompt systemPrompt = getMockResponse := by
      unfold llmHFStage
      rcases hhf with hnone | ⟨e, herr⟩
      · rw [hnone]
      · rcases hk : env.hfKey with _ | k2
        · rfl
        · rw [herr]
    unfold generateCompletion
    rcases hgroq with hnone | ⟨e, herr⟩
    · rw [hnone]; exact hstage
    · rcases hgk : env.groqKey with _ | k2
      · exact hstage
      · rw [herr]; exact hstage

/-- Witness for C4: with no provider configured, the chain returns the mock
string; with Groq configured and succeeding, it returns Groq's text. -/
theorem C4_completion_fallback_chain_witness :
    generateCompletion
      ⟨none, none, fun _ _ => .error "off", fun _ _ => .error "off"⟩ "p" "s" =
      getMockResponse ∧
    generateCompletion
      ⟨some "gk", none, fun _ _ => .ok "groq says hi", fun _ _ => .error "off"⟩ "p" "s" =
      "groq says hi" :=
  ⟨(C4_completion_fallback_chain _ "p" "s").2.2 (Or.inl rfl) (Or.inl rfl),
   (C4_completion_fallback_chain _ "p" "s").1 "gk" "groq says hi" rfl rfl⟩

/-! ## Structured-response extraction (comparative analyzer)

Source: `comparativeAnalyzer.js` (`generateComparison`,
`generateFallbackComparison`).  The extraction is
`aiResponse.match(/\x7b[\s\S]*\x7d/)`: a greedy match running from the first
opening brace to the last closing brace of the whole text, followed by the
built-in `JSON.parse` and a JS-truthiness check of the two required keys.
`JSON.parse` is modelled by a recursive-descent parser over the character
list (strings with the common escapes, integers and decimal fractions,
arrays, objects; the exotic corners of JSON numbers are outside the inputs
considered here). -/

inductive Json where
  | null
  | bool (b : Bool)
  | num (q : ℚ)
  | str (s : String)
  | arr (elements : List Json)
  | obj (fields : List (String × Json))

def jsonWs (c : Char) : Bool :=
  c = ' ' ∨ c = '\t' ∨ c = '\n' ∨ c = '\r'

def skipWs : List Char → List Char
  | [] => []
  | c :: cs => if jsonWs c then skipWs cs else c :: cs

/-- Body of a JSON string after the opening quote: returns the decoded
characters and the remainder after the closing quote. -/
def parseStringBody : List Char → Option (List Char × List Char)
  | [] => none
  | c :: cs =>
    if c = '"' then some ([], cs)
    else if c = '\\' then
      match cs with
      | [] => none
      | e :: cs2 =>
        let ec : Option Char :=
          if e = 'n' then some '\n' else if e = 't' then some '\t'
          else if e = 'r' then some '\r' else if e = '"' then some '"'
          else if e = '\\' then some '\\' else if e = '/' then some '/' else none
        match ec with
        | none => none
        | some ch => (parseStringBody cs2).map (fun p => (ch :: p.1, p.2))
    else (parseStringBody cs).map (fun p => (c :: p.1, p.2))

def digitsToNat (ds : List Char) : ℕ :=
  ds.foldl (fun n c => 10 * n + (c.toNat - 48)) 0

/-- JSON number: optional minus sign, digits, optional decimal fraction. -/
def parseNumber (cs : List Char) : Option (ℚ × List Char) :=
  let signSplit : Bool × List Char :=
    match cs with
    | '-' :: rest => (true, rest)
    | _ => (false, cs)
  let neg := signSplit.1
  let afterSign := signSplit.2
  let intSplit := afterSign.span (fun c => c.isDigit)
  if intSplit.1.isEmpty then none
  else
    match intSplit.2 with
    | '.' :: rest =>
      let fracSplit := rest.span (fun c => c.isDigit)
      if fracSplit.1.isEmpty then none
      else
        let q : ℚ := (digitsToNat intSplit.1 : ℚ) +
          (digitsToNat fracSplit.1 : ℚ) / ((10 : ℚ) ^ fracSplit.1.length)
        some (if neg then -q else q, fracSplit.2)
    | rest => some
        (if neg then -(digitsToNat intSplit.1 : ℚ) else (digitsToNat intSplit.1 : ℚ), rest)

mutual

def parseValue : ℕ → List Char → Option (Json × List Char)
  | 0, _ => none
  | fuel + 1, cs =>
    match skipWs cs with
    | 'n' :: 'u' :: 'l' :: 'l' :: rest => some (Json.null, rest)
    | 't' :: 'r' :: 'u' :: 'e' :: rest => some (Json.bool true, rest)
    | 'f' :: 'a' :: 'l' :: 's' :: 'e' :: rest => some (Json.bool false, rest)
    | '"' :: rest => (parseStringBody rest).map (fun p => (Json.str (String.mk p.1), p.2))
    | '\x7b' :: rest =>
      match skipWs rest with
      | '\x7d' :: r2 => some (Json.obj [], r2)
      | r2 => (parseMembers fuel r2).map (fun p => (Json.obj p.1, p.2))
    | '[' :: rest =>
      match skipWs rest with
      | ']' :: r2 => some (Json.arr [], r2)
      | r2 => (parseElements fuel r2).map (fun p => (Json.arr p.1, p.2))
    | c :: rest =>
      if c.isDigit || c = '-' then
        (parseNumber (c :: rest)).map (fun p => (Json.num p.1, p.2))
      else none
    | [] => none

def parseMembers : ℕ → List Char → Option (List (String × Json) × List Char)
  | 0, _ => none
  | fuel + 1, cs =>
    match skipWs cs with
    | '"' :: rest =>
      match parseStringBody rest with
      | none => none
      | some (key, r2) =>
        match skipWs r2 with
        | ':' :: r3 =>
          match parseValue fuel r3 with
          | none => none
          | some (v, r4) =>
            match skipWs r4 with
            | ',' :: r5 =>
              (parseMembers fuel r5).map (fun p => ((String.mk key, v) :: p.1, p.2))
            | '\x7d' :: r5 => some ([(String.mk key, v)], r5)
            | _ => none
        | _ => none
    | _ => none

def parseElements : ℕ → List Char → Option (List Json × List Char)
  | 0, _ => none
  | fuel + 1, cs =>
    match parseValue fuel cs with
    | none => none
    | some (v, r) =>
      match skipWs r with
      | ',' :: r2 => (parseElements fuel r2).map (fun p => (v :: p.1, p.2))
      | ']' :: r2 => some ([v], r2)
      | _ => none

end

/-- `JSON.parse` over a character list: parse one value, then require only
trailing whitespace.  Every recursive step of `parseValue` consumes at least
one character, so `length + 1` fuel never runs out on accepted inputs. -/
def jsonParseChars (cs : List Char) : Option Json :=
  match parseValue (cs.length + 1) cs with
  | some (j, rest) => if (skipWs rest).isEmpty then some j else none
  | none => none

/-- The regex `/\x7b[\s\S]*\x7d/` applied to the response text: the span from
the first opening brace to the last closing brace, provided the brace pair is
properly ordered; otherwise no match. -/
def matchGreedyBraceSpan (cs : List Char) : Option (List Char) :=
  match cs.findIdx? (fun c => c = '\x7b'), cs.reverse.findIdx? (fun c => c = '\x7d') with
  | some i, some k =>
    let j := cs.length - 1 - k
    if i < j then some ((cs.drop i).take (j - i + 1)) else none
  | _, _ => none

/-- Property access `comparison[key]` on a parsed JSON value. -/
def getField : Json → String → Option Json
  | Json.obj fields, key => (fields.find? (fun f => f.1 = key)).map (fun f => f.2)
  | _, _ => none

/-- JavaScript truthiness of a parsed JSON value (`!comparison.key`). -/
def jsTruthy : Json → Bool
  | Json.null => false
  | Json.bool b => b
  | Json.num q => decide (q ≠ 0)
  | Json.str s => decide (s ≠ "")
  | Json.arr _ => true
  | Json.obj _ => true

def fieldTruthy (j : Json) (key : String) : Bool :=
  match getField j key with
  | some v => jsTruthy v
  | none => false

/-- One analyzed site as read by the comparative analyzer: its URL and its
health score (`report.aggregator?.website_health_score || 0`, stored here
already defaulted). -/
structure SiteReport where
  url : String
  healthScore : ℚ

structure RankedSite where
  domain : String
  score : ℚ
  isUser : Bool

/-- `generateFallbackComparison(userReport, competitorReports)`: rule-based
ranking of user + competitors by health score (stable descending sort,
matching the stable JS `Array.sort`), with the user's rank, percentile and
placeholder strengths/weaknesses/quick wins. -/
def generateFallbackComparison (userReport : SiteReport)
    (competitorReports : List SiteReport) : Json :=
  let userScore := userReport.healthScore
  let allScores : List RankedSite :=
    ⟨userReport.url, userScore, true⟩ ::
      competitorReports.map (fun c => ⟨c.url, c.healthScore, false⟩)
  let sorted := List.insertionSort (fun a b => b.score ≤ a.score) allScores
  let userRank : ℕ := sorted.findIdx (fun s => s.isUser) + 1
  let n : ℕ := sorted.length
  Json.obj [
    ("overall_ranking", Json.arr (sorted.enum.map (fun p =>
      Json.obj [("position", Json.num ((p.1 : ℚ) + 1)),
                ("domain", Json.str p.2.domain),
                ("score", Json.num p.2.score)]))),
    ("your_competitive_position", Json.obj [
      ("rank", Json.num (userRank : ℚ)),
      ("score", Json.num userScore),
      ("percentile", Json.str ("Top " ++ toString (jsRound ((userRank : ℚ) / (n : ℚ) * 100)) ++ "%")),
      ("summary", Json.str ("You rank " ++ toString userRank ++ " out of " ++
        toString n ++ " websites analyzed"))]),
    ("category_comparison", Json.obj []),
    ("strengths", Json.arr [Json.str "Analysis completed"]),
    ("weaknesses", Json.arr [Json.str "Detailed AI analysis unavailable"]),
    ("quick_wins", Json.arr [Json.str "Review competitor reports for insights"]),
    ("strategic_gaps", Json.arr []),
    ("competitive_opportunities", Json.arr [])]

/-- `generateComparison` after the completion call: extract the greedy brace
span from the response text, `JSON.parse` it, and require
`comparison.overall_ranking` and `comparison.your_competitive_position` to be
truthy; every failure path is caught and answered with the rule-based
fallback. -/
def generateComparison (aiResponse : String) (userReport : SiteReport)
    (competitorReports : List SiteReport) : Json :=
  match matchGreedyBraceSpan aiResponse.toList with
  | none => generateFallbackComparison userReport competitorReports
  | some span =>
    match jsonParseChars span with
    | none => generateFallbackComparison userReport competitorReports
    | some comparison =>
      if fieldTruthy comparison "overall_ranking" &&
          fieldTruthy comparison "your_competitive_position" then comparison
      else generateFallbackComparison userReport competitorReports

/-- C5 (amended): the extractor takes the span from the first opening brace to
the last closing brace of the model output (greedy regex, not the first
balanced span), parses it, and checks the two required keys with JS
truthiness; on any failure — no span (in particular no opening brace at all),
unparsable span, or missing/falsy required key — it returns the call site's
rule-based fallback comparison and never throws.  Consequently text whose only
JSON object is `\x7b"a":1\x7d` yields the fallback, not that object (refuting
the original claim's example; see the counterexample). -/
theorem C5_extractor_fallback (text : String) (u : SiteReport) (comps : List SiteReport) :
    (matchGreedyBraceSpan text.toList = none →
      generateComparison text u comps = generateFallbackComparison u comps) ∧
    (¬ '\x7b' ∈ text.toList → matchGreedyBraceSpan text.toList = none) ∧
    (∀ span, matchGreedyBraceSpan text.toList = some span →
      jsonParseChars span = none →
      generateComparison text u comps = generateFallbackComparison u comps) ∧
    (∀ span j, matchGreedyBraceSpan text.toList = some span →
      jsonParseChars span = some j →
      (fieldTruthy j "overall_ranking" && fieldTruthy j "your_competitive_position") = false →
      generateComparison text u comps = generateFallbackComparison u comps) ∧
    (∀ span j, matchGreedyBraceSpan text.toList = some span →
      jsonParseChars span = some j →
      (fieldTruthy j "overall_ranking" && fieldTruthy j "your_competitive_position") = true →
      generateComparison text u comps = j) := by
  refine ⟨?_, ?_, ?_, ?_, ?_⟩
  · intro h; unfold generateComparison; rw [h]
  · intro h
    unfold matchGreedyBraceSpan
    have hnone : text.toList.findIdx? (fun c => c = '\x7b') = none := by
      rw [List.findIdx?_eq_none_iff]
      intro x hx
      have hne : ¬ x = '\x7b' := fun hc => h (hc ▸ hx)
      simp [hne]
    rw [hnone]
  · intro span hs hp
    have hs2 : matchGreedyBraceSpan text.data = some span := hs
    simp [generateComparison, hs2, hp]
  · intro span j hs hp hkeys
    have hs2 : matchGreedyBraceSpan text.data = some span := hs
    have hk : ¬ (fieldTruthy j "overall_ranking" = true ∧
        fieldTruthy j "your_competitive_position" = true) := by
      intro hc
      rw [hc.1, hc.2] at hkeys
      exact absurd hkeys (by decide)
    simp [generateComparison, hs2, hp, hk]
  · intro span j hs hp hkeys
    have hs2 : matchGreedyBraceSpan text.data = some span := hs
    rw [Bool.and_eq_true] at hkeys
    simp [generateComparison, hs2, hp, hkeys.1, hkeys.2]

def exampleUserSite : SiteReport := ⟨"https://user.example", 70⟩

def exampleCompA : SiteReport := ⟨"https://a.example", 80⟩

def exampleCompB : SiteReport := ⟨"https://b.example", 60⟩

/-- Witness for C5: a response with no opening brace falls back. -/
theorem C5_extractor_fallback_witness :
    generateComparison "no json in this response" exampleUserSite [] =
      generateFallbackComparison exampleUserSite [] := by
  have h := C5_extractor_fallback "no json in this response" exampleUserSite []
  exact h.1 (h.2.1 (by decide))

/-- C5 counterexample: the original claim says text containing `\x7b"a":1\x7d`
yields the object `\x7ba:1\x7d` at the comparison call site.  The code parses
that span but then fails the required-key validation (`overall_ranking`,
`your_competitive_position`) and returns the rule-based fallback, which is not
that object. -/
theorem C5_claim_counterexample :
    generateComparison "Result: \x7b\"a\":1\x7d done" exampleUserSite
        [exampleCompA, exampleCompB] =
      generateFallbackComparison exampleUserSite [exampleCompA, exampleCompB] ∧
    generateFallbackComparison exampleUserSite [exampleCompA, exampleCompB] ≠
      Json.obj [("a", Json.num 1)] := by
  constructor
  · rfl
  · intro h
    have hkey : (getField (generateFallbackComparison exampleUserSite
        [exampleCompA, exampleCompB]) "overall_ranking").isSome = true := rfl
    rw [h] at hkey
    exact absurd hkey (by decide)

/-! ## NLP orchestrator and its cache

Source: `nlpService.js` (`cacheKey`, `runNLPAnalysis`, `getEmptyResult`,
the module-level `cache` Map with `CACHE_TTL`).  The JS `Map` is an
insertion-ordered association list with unique keys: `set` of an existing
key updates in place, `set` of a fresh key appends, `delete` removes by
key.  The parallel fan-out plus the two local computations of a cache miss
are one oracle `compute : String → NLPResult` (each task's own fallback is
inside the oracle); the third component of the result records whether that
pipeline ran, i.e. whether any AI-backed task was invoked.  Entity,
keyword, phrase and topic payloads are abstracted to strings; only their
emptiness is at issue in the claims. -/

structure Sentiment where
  label : String
  score : ℚ
  confidence : ℚ

structure AdvancedReadability where
  avg_sentence_length : ℚ
  complex_word_ratio : ℚ
  passive_voice_ratio : ℚ
  jargon_density : ℚ
  question_count : ℚ
  paragraph_count : ℚ

structure NLPResult where
  sentiment : Sentiment
  entities : List String
  keywords : List String
  phrases : List String
  summary : String
  topics : List String
  advanced_readability : AdvancedReadability

structure NLPCacheEntry where
  data : NLPResult
  ts : ℤ

abbrev NLPCache := List (String × NLPCacheEntry)

def CACHE_TTL : ℤ := 60 * 60 * 1000

/-- JS `\s` for the purposes of `replace(/\s+/g, ' ')` and `trim()`. -/
def jsWhitespace (c : Char) : Bool := c.isWhitespace

/-- `replace(/\s+/g, ' ')`: collapse every whitespace run to one space. -/
def collapseWsAux : Bool → List Char → List Char
  | _, [] => []
  | prevWs, c :: cs =>
    if jsWhitespace c then
      if prevWs then collapseWsAux true cs else ' ' :: collapseWsAux true cs
    else c :: collapseWsAux false cs

/-- `String.prototype.trim()`. -/
def jsTrim (cs : List Char) : List Char :=
  ((cs.dropWhile jsWhitespace).reverse.dropWhile jsWhitespace).reverse

/-- `cacheKey(text) = text.slice(0, 200).replace(/\s+/g, ' ').trim()`. -/
def cacheKey (text : String) : String :=
  String.mk (jsTrim (collapseWsAux false (text.toList.take 200)))

/-- `cache.get(key)`. -/
def mapGet (c : NLPCache) (k : String) : Option NLPCacheEntry :=
  (c.find? (fun e => e.1 = k)).map (fun e => e.2)

/-- `cache.set(key, v)`: update in place, or append when the key is fresh. -/
def mapSet : NLPCache → String → NLPCacheEntry → NLPCache
  | [], k, v => [(k, v)]
  | e :: es, k, v => if e.1 = k then (k, v) :: es else e :: mapSet es k v

/-- The pruning block of `runNLPAnalysis`: when more than 50 entries are
held, sort the entries by insertion timestamp ascending (stable, like the JS
sort) and `cache.delete` the first `size - 50` keys. -/
def pruneNLPCache (c : NLPCache) : NLPCache :=
  if 50 < c.length then
    let oldest := List.insertionSort (fun a b => a.2.ts ≤ b.2.ts) c
    (oldest.take (oldest.length - 50)).foldl
      (fun m e => m.filter (fun x => ¬ x.1 = e.1)) c
  else c

/-- `getEmptyResult()`. -/
def getEmptyResult : NLPResult :=
  { sentiment := ⟨"NEUTRAL", 1 / 2, 50⟩
    entities := [], keywords := [], phrases := [], summary := "", topics := []
    advanced_readability := ⟨0, 0, 0, 0, 0, 0⟩ }

/-- `runNLPAnalysis(text)`.  `text : Option String` models a possibly
null/undefined argument; the guard is `!text || text.trim().length < 20`
(the empty string is caught by either test).  The returned Bool is true
exactly when the AI-backed pipeline was invoked. -/
def runNLPAnalysis (compute : String → NLPResult) (cache : NLPCache) (now : ℤ) :
    Option String → NLPResult × NLPCache × Bool
  | none => (getEmptyResult, cache, false)
  | some t =>
    if (jsTrim t.toList).length < 20 then (getEmptyResult, cache, false)
    else
      let key := cacheKey t
      let computeAndStore : NLPResult × NLPCache × Bool :=
        let result := compute t
        (result, pruneNLPCache (mapSet cache key ⟨result, now⟩), true)
      match mapGet cache key with
      | some cached =>
        if now - cached.ts < CACHE_TTL then (cached.data, cache, false)
        else computeAndStore
      | none => computeAndStore

lemma mapGet_cons_none {e : String × NLPCacheEntry} {es : NLPCache} {k : String}
    (h : mapGet (e :: es) k = none) : ¬ e.1 = k ∧ mapGet es k = none := by
  by_cases he : e.1 = k
  · exfalso
    simp [mapGet, List.find?_cons_of_pos, he] at h
  · refine ⟨he, ?_⟩
    simpa [mapGet, List.find?_cons_of_neg, he] using h

lemma mapSet_of_get_none {c : NLPCache} {k : String} {v : NLPCacheEntry}
    (h : mapGet c k = none) : mapSet c k v = c ++ [(k, v)] := by
  induction c with
  | nil => rfl
  | cons e es ih =>
    obtain ⟨he, hes⟩ := mapGet_cons_none h
    unfold mapSet
    rw [if_neg he, ih hes]
    rfl

lemma mapGet_append_single {c : NLPCache} {k : String} {v : NLPCacheEntry}
    (h : mapGet c k = none) : mapGet (c ++ [(k, v)]) k = some v := by
  induction c with
  | nil => simp [mapGet]
  | cons e es ih =>
    obtain ⟨he, hes⟩ := mapGet_cons_none h
    simpa [mapGet, List.find?_cons_of_neg, he] using ih hes

lemma foldl_delete_eq_filter (ks : List (String × NLPCacheEntry)) (c : NLPCache) :
    ks.foldl (fun m e => m.filter (fun x => ¬ x.1 = e.1)) c =
      c.filter (fun x => ¬ x.1 ∈ ks.map Prod.fst) := by
  induction ks generalizing c with
  | nil => simp
  | cons e ks ih =>
    simp only [List.foldl_cons, ih, List.filter_filter]
    apply List.filter_congr
    intro x _
    by_cases h1 : x.1 = e.1 <;> by_cases h2 : x.1 ∈ ks.map Prod.fst <;>
      simp [h1, h2]

/-- Oldest-first eviction: with pairwise-distinct keys (a `Map` invariant)
and more than 50 entries, pruning removes exactly the keys of the
`size - 50` oldest entries and leaves exactly 50. -/
lemma pruneNLPCache_spec (c : NLPCache) (hnd : (c.map Prod.fst).Nodup)
    (hlen : 50 < c.length) :
    pruneNLPCache c = c.filter (fun x =>
      ¬ x.1 ∈ ((List.insertionSort (fun a b => a.2.ts ≤ b.2.ts) c).take
        (c.length - 50)).map Prod.fst) ∧
    (pruneNLPCache c).length = 50 := by
  set s := List.insertionSort (fun a b => a.2.ts ≤ b.2.ts) c with hs
  have hperm : s.Perm c := List.perm_insertionSort _ c
  have hslen : s.length = c.length := hperm.length_eq
  have heq : pruneNLPCache c = c.filter (fun x =>
      ¬ x.1 ∈ (s.take (c.length - 50)).map Prod.fst) := by
    unfold pruneNLPCache
    rw [if_pos hlen, ← hs, foldl_delete_eq_filter, hslen]
  refine ⟨heq, ?_⟩
  rw [heq]
  have hk : c.length - 50 ≤ s.length := by omega
  have hnds : (s.map Prod.fst).Nodup :=
    ((hperm.map Prod.fst).nodup_iff).mpr hnd
  have hsplit : s = s.take (c.length - 50) ++ s.drop (c.length - 50) :=
    (List.take_append_drop _ s).symm
  have hdisj : List.Disjoint ((s.take (c.length - 50)).map Prod.fst)
      ((s.drop (c.length - 50)).map Prod.fst) := by
    apply List.disjoint_of_nodup_append
    rw [← List.map_append, ← hsplit]
    exact hnds
  have hcount : (c.filter (fun x =>
      ¬ x.1 ∈ (s.take (c.length - 50)).map Prod.fst)).length =
      List.countP (fun x => ¬ x.1 ∈ (s.take (c.length - 50)).map Prod.fst) c := by
    rw [List.countP_eq_length_filter]
  rw [hcount, ← hperm.countP_eq]
  have hc2 : List.countP (fun x =>
      ¬ x.1 ∈ (s.take (c.length - 50)).map Prod.fst) s =
      List.countP (fun x => ¬ x.1 ∈ (s.take (c.length - 50)).map Prod.fst)
        (s.take (c.length - 50)) +
      List.countP (fun x => ¬ x.1 ∈ (s.take (c.length - 50)).map Prod.fst)
        (s.drop (c.length - 50)) := by
    rw [← List.countP_append]
    exact congrArg (List.countP _) hsplit
  rw [hc2]
  have htake : List.countP (fun x =>
      ¬ x.1 ∈ (s.take (c.length - 50)).map Prod.fst) (s.take (c.length - 50)) = 0 := by
    rw [List.countP_eq_zero]
    intro a ha
    simp only [decide_eq_true_eq, not_not]
    exact List.mem_map_of_mem Prod.fst ha
  have hdrop : List.countP (fun x =>
      ¬ x.1 ∈ (s.take (c.length - 50)).map Prod.fst) (s.drop (c.length - 50)) =
      (s.drop (c.length - 50)).length := by
    rw [List.countP_eq_length]
    intro a ha
    simp only [decide_eq_true_eq]
    exact fun hmem => hdisj hmem (List.mem_map_of_mem Prod.fst ha)
  rw [htake, hdrop, List.length_drop]
  omega

/-- C6: the NLP orchestrator caches by fingerprint.  A miss on a fresh key
computes and appends the result (with its timestamp); resubmitting the
identical text within the TTL returns exactly the cached result object with
the cache untouched and the AI pipeline not invoked; and whenever the cache
holds more than 50 entries, pruning evicts precisely the oldest entries (by
insertion timestamp, `Map` keys being pairwise distinct) until exactly 50
remain. -/
theorem C6_nlp_cache_lifecycle :
    (∀ (compute : String → NLPResult) (cache : NLPCache) (t1 t2 : ℤ) (text : String),
      20 ≤ (jsTrim text.toList).length →
      mapGet cache (cacheKey text) = none →
      cache.length < 50 →
      t2 - t1 < CACHE_TTL →
      runNLPAnalysis compute cache t1 (some text) =
        (compute text, cache ++ [(cacheKey text, ⟨compute text, t1⟩)], true) ∧
      runNLPAnalysis compute (cache ++ [(cacheKey text, ⟨compute text, t1⟩)]) t2
          (some text) =
        (compute text, cache ++ [(cacheKey text, ⟨compute text, t1⟩)], false)) ∧
    (∀ cache : NLPCache, (cache.map Prod.fst).Nodup → 50 < cache.length →
      (pruneNLPCache cache).length = 50 ∧
      pruneNLPCache cache = cache.filter (fun x =>
        ¬ x.1 ∈ ((List.insertionSort (fun a b => a.2.ts ≤ b.2.ts) cache).take
          (cache.length - 50)).map Prod.fst)) := by
  constructor
  · intro compute cache t1 t2 text hlen hmiss hsize httl
    have hnl : ¬ (jsTrim text.toList).length < 20 := not_lt.mpr hlen
    have hset : mapSet cache (cacheKey text) ⟨compute text, t1⟩ =
        cache ++ [(cacheKey text, ⟨compute text, t1⟩)] := mapSet_of_get_none hmiss
    have hpr : pruneNLPCache (cache ++ [(cacheKey text, ⟨compute text, t1⟩)]) =
        cache ++ [(cacheKey text, ⟨compute text, t1⟩)] := by
      unfold pruneNLPCache
      rw [if_neg]
      rw [List.length_append]
      simp only [List.length_cons, List.length_nil]
      omega
    constructor
    · simp only [runNLPAnalysis, hnl, if_false, hmiss]
      rw [hset, hpr]
    · have hget := mapGet_append_single (v := ⟨compute text, t1⟩) hmiss
      simp only [runNLPAnalysis, hnl, if_false, hget]
      rw [if_pos httl]
  · intro cache hnd hlen
    have h := pruneNLPCache_spec cache hnd hlen
    exact ⟨h.2, h.1⟩

/-- Witness for C6: a concrete first call inserts, and an identical call
1 second later hits the cache without re-running the pipeline. -/
theorem C6_nlp_cache_lifecycle_witness :
    runNLPAnalysis (fun _ => getEmptyResult) [] 0
        (some "abcdefghijklmnopqrstuvwxyz") =
      (getEmptyResult,
        [(cacheKey "abcdefghijklmnopqrstuvwxyz", ⟨getEmptyResult, 0⟩)], true) ∧
    runNLPAnalysis (fun _ => getEmptyResult)
        [(cacheKey "abcdefghijklmnopqrstuvwxyz", ⟨getEmptyResult, 0⟩)] 1000
        (some "abcdefghijklmnopqrstuvwxyz") =
      (getEmptyResult,
        [(cacheKey "abcdefghijklmnopqrstuvwxyz", ⟨getEmptyResult, 0⟩)], false) := by
  have h := C6_nlp_cache_lifecycle.1 (fun _ => getEmptyResult) [] 0 1000
    "abcdefghijklmnopqrstuvwxyz" (by decide) rfl (by decide) (by decide)
  exact ⟨h.1, h.2⟩

/-- C10: a null text, or any text whose trimmed length is under 20
characters, yields the fixed empty result — NEUTRAL sentiment with score 0.5
and confidence 50, empty collections, empty summary, all-zero readability
metrics — with the cache untouched and no AI-backed task invoked. -/
theorem C10_short_text_empty_result (compute : String → NLPResult)
    (cache : NLPCache) (now : ℤ) :
    runNLPAnalysis compute cache now none = (getEmptyResult, cache, false) ∧
    (∀ t : String, (jsTrim t.toList).length < 20 →
      runNLPAnalysis compute cache now (some t) = (getEmptyResult, cache, false)) ∧
    getEmptyResult =
      { sentiment := ⟨"NEUTRAL", 1 / 2, 50⟩
        entities := [], keywords := [], phrases := [], summary := "", topics := []
        advanced_readability := ⟨0, 0, 0, 0, 0, 0⟩ } := by
  refine ⟨rfl, ?_, rfl⟩
  intro t ht
  unfold runNLPAnalysis
  dsimp only
  rw [if_pos ht]

/-- Witness for C10: the two-character text "hi" yields the empty result with
no cache traffic. -/
theorem C10_short_text_empty_result_witness :
    runNLPAnalysis (fun _ => getEmptyResult) [] 0 (some "hi") =
      (getEmptyResult, [], false) :=
  (C10_short_text_empty_result (fun _ => getEmptyResult) [] 0).2.1 "hi" (by decide)

/-! ## Timeout configuration of the external AI provider calls

Source: the `fetch` options of each AI provider request in the backend.
The static timeout option each request is constructed with is recorded
here: `sentimentAnalyzer.js`, `entityExtractor.js` pass
`AbortSignal.timeout(10000)`; `summarizer.js`, `topicClassifier.js` pass
`AbortSignal.timeout(15000)`; the Groq chat-completions `fetch` in
`llmService.js` passes no timeout or abort signal at all.  (The
HuggingFace leg of the completion chain goes through `llmAdapter`, whose
source is not in the repository snapshot and is not modelled.)  The
sentiment task's catch-and-fall-back behaviour is modelled with its
rule-based fallback in full. -/

structure AIRequestConfig where
  description : String
  timeoutMs : Option ℕ

def groqChatRequest : AIRequestConfig :=
  ⟨"llmService.generateCompletion Groq chat-completions fetch", none⟩

def hfSentimentRequest : AIRequestConfig :=
  ⟨"sentimentAnalyzer HF inference fetch", some 10000⟩

def hfEntityRequest : AIRequestConfig :=
  ⟨"entityExtractor HF inference fetch", some 10000⟩

def hfSummarizerRequest : AIRequestConfig :=
  ⟨"summarizer HF inference fetch", some 15000⟩

def hfTopicRequest : AIRequestConfig :=
  ⟨"topicClassifier HF inference fetch", some 15000⟩

def nlpProviderRequests : List AIRequestConfig :=
  [hfSentimentRequest, hfEntityRequest, hfSummarizerRequest, hfTopicRequest]

def aiProviderRequests : List AIRequestConfig :=
  groqChatRequest :: nlpProviderRequests

/-- JS `\w` (`[A-Za-z0-9_]`), used by `text.toLowerCase().split(/\W+/)`. -/
def isJsWordChar (c : Char) : Bool := c.isAlphanum || c = '_'

/-- `split(/\W+/)` restricted to the word chunks (the possible leading empty
string of the JS split never matches a sentiment word list entry). -/
def wordsAux : List Char → List Char → List String
  | [], acc => if acc.isEmpty then [] else [String.mk acc.reverse]
  | c :: cs, acc =>
    if isJsWordChar c then wordsAux cs (c :: acc)
    else if acc.isEmpty then wordsAux cs []
    else String.mk acc.reverse :: wordsAux cs []

def positiveWords : List String :=
  ["great", "excellent", "amazing", "wonderful", "best", "love", "perfect",
   "fantastic", "awesome", "good", "happy", "beautiful", "brilliant",
   "outstanding", "superb", "enjoy", "recommend", "impressive", "success",
   "innovative", "powerful", "reliable", "efficient", "premium", "trusted"]

def negativeWords : List String :=
  ["bad", "terrible", "awful", "worst", "hate", "poor", "horrible",
   "disappointing", "ugly", "fail", "broken", "error", "problem",
   "slow", "expensive", "difficult", "confusing", "frustrating", "annoying",
   "warning", "risk", "danger", "scam", "fake", "spam"]

/-- `ruleBasedSentiment(text)` from `sentimentAnalyzer.js`. -/
def ruleBasedSentiment (text : String) : Sentiment :=
  let words := wordsAux text.toLower.toList []
  let posCount := (words.filter (fun w => positiveWords.contains w)).length
  let negCount := (words.filter (fun w => negativeWords.contains w)).length
  let total : ℚ := if posCount + negCount = 0 then 1 else ((posCount + negCount : ℕ) : ℚ)
  let posRatio : ℚ := (posCount : ℚ) / total
  if 3 / 5 < posRatio then
    ⟨"POSITIVE", 3 / 5 + posRatio * (3 / 10),
      (jsRound ((3 / 5 + posRatio * (3 / 10)) * 100) : ℚ)⟩
  else if posRatio < 2 / 5 then
    ⟨"NEGATIVE", 3 / 5 + (1 - posRatio) * (3 / 10),
      (jsRound ((3 / 5 + (1 - posRatio) * (3 / 10)) * 100) : ℚ)⟩
  else ⟨"NEUTRAL", 11 / 20, 55⟩

/-- `analyzeSentiment(text)`: without an `HF_API_KEY` the rule-based fallback
runs directly; with a key, the HF request outcome (success, or any failure
including a fired `AbortSignal.timeout`) decides between the parsed result
and the same fallback via the catch block. -/
def analyzeSentiment (apiKey : Option String) (hfOutcome : Except String Sentiment)
    (text : String) : Sentiment :=
  match apiKey with
  | none => ruleBasedSentiment text
  | some _ =>
    match hfOutcome with
    | .ok s => s
    | .error _ => ruleBasedSentiment text

/-- C8 (amended): the four NLP provider requests are bounded by explicit
10–15 second timeouts and a timed-out (hence failed) call routes to its
documented fallback — the completion chain falls from Groq to the next
stage, the sentiment task falls to its rule-based fallback — but the Groq
chat-completions request itself carries no timeout option at all, contrary
to the original claim. -/
theorem C8_provider_timeouts :
    (∀ r ∈ nlpProviderRequests, ∃ t, r.timeoutMs = some t ∧ 10000 ≤ t ∧ t ≤ 15000) ∧
    groqChatRequest.timeoutMs = none ∧
    (∀ (env : LLMEnv) (p sp e : String), env.groqOutcome p sp = .error e →
      generateCompletion env p sp = llmHFStage env p sp) ∧
    (∀ (key text e : String) (out : Except String Sentiment), out = .error e →
      analyzeSentiment (some key) out text = ruleBasedSentiment text) := by
  refine ⟨?_, rfl, ?_, ?_⟩
  · intro r hr
    simp only [nlpProviderRequests, List.mem_cons, List.not_mem_nil, or_false] at hr
    rcases hr with rfl | rfl | rfl | rfl
    · exact ⟨10000, rfl, by norm_num, by norm_num⟩
    · exact ⟨10000, rfl, by norm_num, by norm_num⟩
    · exact ⟨15000, rfl, by norm_num, by norm_num⟩
    · exact ⟨15000, rfl, by norm_num, by norm_num⟩
  · intro env p sp e hgerr
    unfold generateCompletion
    rcases hk : env.groqKey with _ | k
    · rfl
    · rw [hgerr]
  · intro key text e out hout
    unfold analyzeSentiment
    rw [hout]

/-- Witness for C8: the sentiment request's 10 s bound, the Groq fall-through
on a (timeout) failure, and the sentiment fallback on a (timeout) failure,
all at concrete inputs. -/
theorem C8_provider_timeouts_witness :
    hfSentimentRequest.timeoutMs = some 10000 ∧
    generateCompletion
        ⟨some "gk", none, fun _ _ => .error "timeout", fun _ _ => .error "x"⟩ "p" "s" =
      llmHFStage
        ⟨some "gk", none, fun _ _ => .error "timeout", fun _ _ => .error "x"⟩ "p" "s" ∧
    analyzeSentiment (some "hk") (.error "timeout") "slow awful site" =
      ruleBasedSentiment "slow awful site" := by
  have h := C8_provider_timeouts
  obtain ⟨t, ht, hge, hle⟩ := h.1 hfSentimentRequest (List.mem_cons_self _ _)
  have h10 : (10000 : ℕ) = t := Option.some.inj ht
  refine ⟨by rw [ht, ← h10], ?_, ?_⟩
  · exact h.2.2.1 _ "p" "s" "timeout" rfl
  · exact h.2.2.2 "hk" "slow awful site" "timeout" _ rfl

/-- C8 counterexample: the claim that every external AI provider call is
bounded by a 10–15 second timeout fails at the completion chain's own Groq
request, whose `fetch` options contain no timeout at all. -/
theorem C8_claim_counterexample :
    ¬ (∀ r ∈ aiProviderRequests, ∃ t, r.timeoutMs = some t ∧ 10000 ≤ t ∧ t ≤ 15000) := by
  intro h
  obtain ⟨t, ht, _, _⟩ := h groqChatRequest (List.mem_cons_self _ _)
  exact Option.noConfusion ht

end WebAnalyzer
